import Mathlib

/-!
Shallow embedding of the offline-synchronization core of the Pokedex
application (Zustand store + Dexie persistence + PokeAPI service layer).

JS strings are modelled as lists of characters (`JSString`); the in-memory
membership set `caughtIds : Set<number>` is modelled as a `Finset Nat`;
asynchronous, fallible external effects (IndexedDB writes, image fetching,
FileReader decoding) are modelled by explicit outcome parameters, and the
side effects of each operation (durable-store calls issued, logger calls
issued) are returned explicitly so that theorems can speak about them.
-/

/-- JavaScript strings, modelled as their sequence of characters. -/
abbrev JSString := List Char

/-- `s.toLowerCase()` (ASCII-faithful model of JS `toLowerCase`). -/
def jsToLower (s : JSString) : JSString := s.map Char.toLower

/-- `s.startsWith(q)`. -/
def jsStartsWith : JSString → JSString → Bool
  | _, [] => true
  | [], _ :: _ => false
  | c :: s, d :: q => c = d && jsStartsWith s q

/-- `s.trim()`: strip leading and trailing whitespace. -/
def jsTrim (s : JSString) : JSString :=
  ((s.dropWhile Char.isWhitespace).reverse.dropWhile Char.isWhitespace).reverse

/-- The six-field statistic block of the domain model `Pokemon`
(`pokemon.service.ts`, interface `Pokemon`, field `stats`). -/
structure PokemonStats where
  hp : Nat
  attack : Nat
  defense : Nat
  specialAttack : Nat
  specialDefense : Nat
  speed : Nat
deriving DecidableEq

/-- The internal domain model `Pokemon` (`pokemon.service.ts`). -/
structure Pokemon where
  id : Nat
  name : JSString
  imageUrl : JSString
  types : List JSString
  height : Nat
  weight : Nat
  stats : PokemonStats
deriving DecidableEq

/-- A locally persisted record, interface `CaughtPokemon` of `lib/db.ts`:
the `Pokemon` fields plus a capture timestamp and an optional note.
The `Date` timestamp is modelled as a number (epoch instant). -/
structure CaughtPokemon where
  id : Nat
  name : JSString
  imageUrl : JSString
  types : List JSString
  caughtAt : Nat
  note : Option JSString
  height : Nat
  weight : Nat
  stats : PokemonStats
deriving DecidableEq

/-- Argument of `catchPokemon`: `Omit<CaughtPokemon, 'caughtAt'>`. -/
structure CatchInput where
  id : Nat
  name : JSString
  imageUrl : JSString
  types : List JSString
  note : Option JSString
  height : Nat
  weight : Nat
  stats : PokemonStats
deriving DecidableEq

/-- Calls issued against the Dexie table `db.caughtPokemon` (the Local
Durable Store). A listed call may still fail; the list records that the
call was issued. -/
inductive DbWrite where
  | add (record : CaughtPokemon)
  | bulkDelete (ids : List Nat)
  | update (id : Nat) (note : JSString)
deriving DecidableEq

/-- Outcome of one awaited durable-store call. -/
inductive DbResult where
  | ok
  | fail
deriving DecidableEq

/-- Calls issued against the `logger` facade, with the structured data
the corresponding message template interpolates. -/
inductive LogEvent where
  | warnDuplicateCapture (id : Nat)
  | warnNoteTruncated (id : Nat)
  | warnRecovered (failedCount : Nat)
  | errorImageConvertFailed
  | errorCatchFailed
  | errorReleaseFailed
  | errorNoteUpdateFailed
deriving DecidableEq

/-- Resolution of the asynchronous steps inside
`convertImageUrlToBase64` (`image-utils.ts`):
`fetchFail` means `fetch` or `response.blob()` rejected (network, CORS);
`readerFail` means the `FileReader` fired `onerror` (decode failure);
`readerOk` means the reader produced the base64 data URL. -/
inductive EmbedOutcome where
  | fetchFail
  | readerFail
  | readerOk (encoded : JSString)
deriving DecidableEq

/-- `convertImageUrlToBase64` (`image-utils.ts`, lines 27-62). Returns the
settlement of the promise the caller awaits, plus the logger calls issued.
The `try/catch` surrounds `await fetch` and `await response.blob()`, so a
rejection there is caught, logged, and degrades to the original URL. The
inner `new Promise` wrapping the `FileReader` is RETURNED from the `try`
block without `await`; by JS semantics its rejection (`reader.onerror`) is
therefore NOT intercepted by the `catch` block: the call rejects and no
log is written. That path is modelled as `Except.error ()`. -/
def convertImageUrlToBase64 (imageUrl : JSString) :
    EmbedOutcome → Except Unit JSString × List LogEvent
  | EmbedOutcome.fetchFail => (Except.ok imageUrl, [LogEvent.errorImageConvertFailed])
  | EmbedOutcome.readerFail => (Except.error (), [])
  | EmbedOutcome.readerOk encoded => (Except.ok encoded, [])

/-- Result of one store action: the published `caughtIds` state after the
action settles, the durable-store calls issued, and the logger calls. -/
structure StoreEffects where
  caughtIds : Finset Nat
  writes : List DbWrite
  logs : List LogEvent
deriving DecidableEq

/-- `catchPokemon` (`pokedex.store.ts`, lines 54-93). The duplicate guard
returns before any I/O; otherwise the id is added optimistically, the
image embedding is awaited, the record is inserted, and any rejection of
the awaited steps rolls `caughtIds` back to the pre-mutation snapshot.
`imageStep` resolves the embedding steps and `dbAdd` the `db.caughtPokemon.add`
call; `now` is the freshly assigned capture timestamp. -/
def catchPokemon (caughtIds : Finset Nat) (pokemon : CatchInput)
    (imageStep : EmbedOutcome) (dbAdd : DbResult) (now : Nat) : StoreEffects :=
  if pokemon.id ∈ caughtIds then
    { caughtIds := caughtIds, writes := [],
      logs := [LogEvent.warnDuplicateCapture pokemon.id] }
  else
    let previousState := caughtIds
    let nextState := insert pokemon.id previousState
    match convertImageUrlToBase64 pokemon.imageUrl imageStep with
    | (Except.error _, convLogs) =>
        { caughtIds := previousState, writes := [],
          logs := convLogs ++ [LogEvent.errorCatchFailed] }
    | (Except.ok offlineImage, convLogs) =>
        let record : CaughtPokemon :=
          { id := pokemon.id, name := pokemon.name, imageUrl := offlineImage,
            types := pokemon.types, caughtAt := now, note := pokemon.note,
            height := pokemon.height, weight := pokemon.weight,
            stats := pokemon.stats }
        match dbAdd with
        | DbResult.ok =>
            { caughtIds := nextState, writes := [DbWrite.add record],
              logs := convLogs }
        | DbResult.fail =>
            { caughtIds := previousState, writes := [DbWrite.add record],
              logs := convLogs ++ [LogEvent.errorCatchFailed] }

/-- `releasePokemon` (`pokedex.store.ts`, lines 96-114): no-op on empty
input, optimistic removal, rollback when `bulkDelete` rejects. -/
def releasePokemon (caughtIds : Finset Nat) (ids : List Nat)
    (dbDelete : DbResult) : StoreEffects :=
  if ids = [] then { caughtIds := caughtIds, writes := [], logs := [] }
  else
    let previousState := caughtIds
    let nextState := ids.foldl (fun s i => s.erase i) previousState
    match dbDelete with
    | DbResult.ok =>
        { caughtIds := nextState, writes := [DbWrite.bulkDelete ids], logs := [] }
    | DbResult.fail =>
        { caughtIds := previousState, writes := [DbWrite.bulkDelete ids],
          logs := [LogEvent.errorReleaseFailed] }

/-- `MAX_NOTE_LENGTH` (`pokedex.store.ts`, line 32). -/
def MAX_NOTE_LENGTH : Nat := 200

/-- `updatePokemonNote` (`pokedex.store.ts`, lines 117-132): trim, truncate
to `MAX_NOTE_LENGTH` with a warning, then `db.caughtPokemon.update`.
Returns the durable-store calls issued and the logger calls. -/
def updatePokemonNote (id : Nat) (note : JSString) (dbUpdate : DbResult) :
    List DbWrite × List LogEvent :=
  let trimmed := jsTrim note
  let truncLogs :=
    if trimmed.length > MAX_NOTE_LENGTH then [LogEvent.warnNoteTruncated id] else []
  let safeNote :=
    if trimmed.length > MAX_NOTE_LENGTH then trimmed.take MAX_NOTE_LENGTH else trimmed
  match dbUpdate with
  | DbResult.ok => ([DbWrite.update id safeNote], truncLogs)
  | DbResult.fail =>
      ([DbWrite.update id safeNote], truncLogs ++ [LogEvent.errorNoteUpdateFailed])

/-- Claim C2: a capture of an identifier already in the membership set is
rejected before any I/O: `caughtIds` is unchanged, zero durable-store
calls are issued, and exactly one warning (no error) is logged. -/
theorem catchPokemon_duplicate_noop (caughtIds : Finset Nat)
    (pokemon : CatchInput) (imageStep : EmbedOutcome) (dbAdd : DbResult) (now : Nat)
    (h : pokemon.id ∈ caughtIds) :
    (catchPokemon caughtIds pokemon imageStep dbAdd now).caughtIds = caughtIds ∧
    (catchPokemon caughtIds pokemon imageStep dbAdd now).writes = [] ∧
    (catchPokemon caughtIds pokemon imageStep dbAdd now).logs =
      [LogEvent.warnDuplicateCapture pokemon.id] := by
  simp [catchPokemon, h]

/-- Sample capture input (pikachu, mirroring the store test fixture). -/
def pikachuInput : CatchInput :=
  { id := 25, name := ("pikachu").toList,
    imageUrl := ("https://pikachu.com/image.png").toList,
    types := [("electric").toList], note := some [],
    height := 4, weight := 60,
    stats := { hp := 35, attack := 55, defense := 40, specialAttack := 50,
               specialDefense := 50, speed := 90 } }

/-- Witness for C2 at a concrete duplicate capture. -/
theorem catchPokemon_duplicate_noop_witness :
    (catchPokemon {25} pikachuInput (EmbedOutcome.readerOk []) DbResult.ok 7).caughtIds
      = {25} ∧
    (catchPokemon {25} pikachuInput (EmbedOutcome.readerOk []) DbResult.ok 7).writes
      = [] ∧
    (catchPokemon {25} pikachuInput (EmbedOutcome.readerOk []) DbResult.ok 7).logs
      = [LogEvent.warnDuplicateCapture 25] :=
  catchPokemon_duplicate_noop {25} pikachuInput (EmbedOutcome.readerOk [])
    DbResult.ok 7 (by decide)

/-- Claim C1: when the identifier is new and either the awaited image
embedding rejects or the durable insert rejects, `catchPokemon` restores
the exact pre-mutation membership set. -/
theorem catchPokemon_failure_rollback (caughtIds : Finset Nat)
    (pokemon : CatchInput) (imageStep : EmbedOutcome) (dbAdd : DbResult) (now : Nat)
    (hnew : pokemon.id ∉ caughtIds)
    (hfail : (convertImageUrlToBase64 pokemon.imageUrl imageStep).1 = Except.error ()
      ∨ dbAdd = DbResult.fail) :
    (catchPokemon caughtIds pokemon imageStep dbAdd now).caughtIds = caughtIds := by
  cases imageStep with
  | fetchFail =>
      rcases hfail with hconv | hdb
      · simp [convertImageUrlToBase64] at hconv
      · subst hdb
        simp [catchPokemon, hnew, convertImageUrlToBase64]
  | readerFail =>
      simp [catchPokemon, hnew, convertImageUrlToBase64]
  | readerOk encoded =>
      rcases hfail with hconv | hdb
      · simp [convertImageUrlToBase64] at hconv
      · subst hdb
        simp [catchPokemon, hnew, convertImageUrlToBase64]

/-- Witness for C1: a fresh capture whose FileReader step rejects rolls the
membership set back to the empty pre-capture snapshot. -/
theorem catchPokemon_failure_rollback_witness :
    (catchPokemon ∅ pikachuInput EmbedOutcome.readerFail DbResult.ok 7).caughtIds
      = ∅ :=
  catchPokemon_failure_rollback ∅ pikachuInput EmbedOutcome.readerFail DbResult.ok 7
    (by decide) (Or.inl rfl)

/-- Claim C5: capturing a not-yet-owned identifier and then releasing it,
with the durable insert and the durable delete both succeeding, restores
the pre-capture membership set (round-trip identity). -/
theorem catch_then_release_roundtrip (caughtIds : Finset Nat)
    (pokemon : CatchInput) (imageStep : EmbedOutcome) (now : Nat)
    (hnew : pokemon.id ∉ caughtIds) :
    (releasePokemon
        (catchPokemon caughtIds pokemon imageStep DbResult.ok now).caughtIds
        [pokemon.id] DbResult.ok).caughtIds = caughtIds := by
  cases imageStep with
  | fetchFail =>
      simp [catchPokemon, releasePokemon, convertImageUrlToBase64, hnew,
        Finset.erase_insert hnew]
  | readerFail =>
      simp [catchPokemon, releasePokemon, convertImageUrlToBase64, hnew,
        Finset.erase_eq_of_not_mem hnew]
  | readerOk encoded =>
      simp [catchPokemon, releasePokemon, convertImageUrlToBase64, hnew,
        Finset.erase_insert hnew]

/-- Witness for C5 at a concrete capture/release pair. -/
theorem catch_then_release_roundtrip_witness :
    (releasePokemon
        (catchPokemon {1, 4} pikachuInput (EmbedOutcome.readerOk []) DbResult.ok 7).caughtIds
        [pikachuInput.id] DbResult.ok).caughtIds = {1, 4} :=
  catch_then_release_roundtrip {1, 4} pikachuInput (EmbedOutcome.readerOk []) 7
    (by decide)

/-- Claim C7: `updatePokemonNote` issues exactly one durable update whose
persisted text is the whitespace-trimmed input truncated to at most 200
characters; the persisted text never exceeds 200 characters, and when
truncation happens a warning (not a rejection) is logged. -/
theorem updatePokemonNote_trims_and_truncates (id : Nat) (note : JSString)
    (dbUpdate : DbResult) :
    (updatePokemonNote id note dbUpdate).1
      = [DbWrite.update id ((jsTrim note).take MAX_NOTE_LENGTH)] ∧
    ((jsTrim note).take MAX_NOTE_LENGTH).length ≤ MAX_NOTE_LENGTH ∧
    ((jsTrim note).length > MAX_NOTE_LENGTH →
      LogEvent.warnNoteTruncated id ∈ (updatePokemonNote id note dbUpdate).2) := by
  refine ⟨?_, ?_, ?_⟩
  · by_cases h : (jsTrim note).length > MAX_NOTE_LENGTH
    · simp [updatePokemonNote, h]
      cases dbUpdate <;> simp
    · have hle : (jsTrim note).length ≤ MAX_NOTE_LENGTH := by omega
      simp [updatePokemonNote, h]
      cases dbUpdate <;> simp [List.take_of_length_le hle]
  · exact le_trans (List.length_take_le _ _) (le_refl _)
  · intro h
    cases dbUpdate <;> simp [updatePokemonNote, h]

set_option maxRecDepth 20000 in
/-- Witness for C7: a 250-character note is persisted as exactly its first
200 characters and the truncation is logged as a warning. -/
theorem updatePokemonNote_trims_and_truncates_witness :
    (updatePokemonNote 25 (List.replicate 250 'a') DbResult.ok).1
      = [DbWrite.update 25 (List.replicate 200 'a')] ∧
    LogEvent.warnNoteTruncated 25
      ∈ (updatePokemonNote 25 (List.replicate 250 'a') DbResult.ok).2 := by
  have h := updatePokemonNote_trims_and_truncates 25 (List.replicate 250 'a')
    DbResult.ok
  refine ⟨?_, h.2.2 (by decide)⟩
  rw [h.1]
  decide

/-- The value the details view renders: either the remote `Pokemon` from
the API or the local `CaughtPokemon` record (the TS union
`Pokemon | CaughtPokemon`). -/
inductive MergedDetails where
  | fromApi (p : Pokemon)
  | fromLocal (c : CaughtPokemon)
deriving DecidableEq

/-- The data-merge `useMemo` of `usePokemonDetails`
(`usePokemonDetails.ts`, lines 75-97): shared view forces the API data;
otherwise a local record wins; otherwise fall through to the API data.
`none` models `undefined`. -/
def mergeDetails (isSharedView : Bool) (localPokemon : Option CaughtPokemon)
    (apiPokemon : Option Pokemon) : Option MergedDetails :=
  if isSharedView then apiPokemon.map MergedDetails.fromApi
  else
    match localPokemon with
    | some l => some (MergedDetails.fromLocal l)
    | none => apiPokemon.map MergedDetails.fromApi

/-- Modelled from the spec's precedence wording, for comparison with
`mergeDetails`: marker present resolves to the remote entity regardless of
local ownership; marker absent with a local record resolves to the local
record; otherwise to the remote entity. -/
def mergeDetailsSpec (isSharedView : Bool) (localPokemon : Option CaughtPokemon)
    (apiPokemon : Option Pokemon) : Option MergedDetails :=
  match isSharedView, localPokemon with
  | true, _ => apiPokemon.map MergedDetails.fromApi
  | false, some l => some (MergedDetails.fromLocal l)
  | false, none => apiPokemon.map MergedDetails.fromApi

/-- Claim C3: the resolver's fused value follows the spec's precedence in
every case — with the shared-view marker it is the remote entity whether or
not a local record exists, without the marker a local record wins, and
otherwise the remote entity is used. -/
theorem mergeDetails_precedence (l : CaughtPokemon) (ap : Option Pokemon) :
    mergeDetails true (some l) ap = ap.map MergedDetails.fromApi ∧
    mergeDetails true none ap = ap.map MergedDetails.fromApi ∧
    mergeDetails false (some l) ap = some (MergedDetails.fromLocal l) ∧
    mergeDetails false none ap = ap.map MergedDetails.fromApi ∧
    (∀ sv lp, mergeDetails sv lp ap = mergeDetailsSpec sv lp ap) := by
  refine ⟨rfl, rfl, rfl, rfl, ?_⟩
  intro sv lp
  cases sv <;> cases lp <;> rfl

/-- `isEffectiveLoading` of `usePokemonDetails`
(`usePokemonDetails.ts`, line 157): the aggregated loading flag, with the
merged value recomputed from the same inputs as in the hook. -/
def isEffectiveLoading (isApiLoading isLocalLoading isSharedView : Bool)
    (localPokemon : Option CaughtPokemon) (apiPokemon : Option Pokemon) : Bool :=
  (isApiLoading || (isLocalLoading && !isSharedView)) &&
    (mergeDetails isSharedView localPokemon apiPokemon).isNone

/-- Modelled from the claim's wording, for comparison with
`isEffectiveLoading`: the plain OR of the two outstanding flags, suppressed
once any resolved value exists, with no dependence on the marker. -/
def isEffectiveLoadingClaimed (isApiLoading isLocalLoading isSharedView : Bool)
    (localPokemon : Option CaughtPokemon) (apiPokemon : Option Pokemon) : Bool :=
  (isApiLoading || isLocalLoading) &&
    (mergeDetails isSharedView localPokemon apiPokemon).isNone

/-- Claim C9, counterexample: in a shared view with the local lookup still
outstanding, the remote fetch settled, and no value resolved, the code's
loading flag is `false` while the claimed OR-of-outstanding formula gives
`true` — the flag does depend on the shared-view marker. -/
theorem isEffectiveLoading_marker_dependent :
    isEffectiveLoading false true true none none = false ∧
    isEffectiveLoadingClaimed false true true none none = true := by
  exact ⟨rfl, rfl⟩

/-- Claim C9, amended: outside a shared view the loading flag is the OR of
the two outstanding flags ANDed with the absence of a resolved value; in a
shared view the local-lookup-outstanding disjunct is ignored and only the
remote flag counts; in both cases the flag is suppressed as soon as any
resolved value exists. -/
theorem isEffectiveLoading_characterization (a l : Bool)
    (lp : Option CaughtPokemon) (ap : Option Pokemon) (c : CaughtPokemon)
    (p : Pokemon) :
    isEffectiveLoading a l false lp ap
      = ((a || l) && (mergeDetails false lp ap).isNone) ∧
    isEffectiveLoading a l true lp ap
      = (a && (mergeDetails true lp ap).isNone) ∧
    isEffectiveLoading a l true lp (some p) = false ∧
    isEffectiveLoading a l false (some c) ap = false ∧
    isEffectiveLoading a l false none (some p) = false := by
  refine ⟨?_, ?_, ?_, ?_, ?_⟩ <;>
    cases a <;> cases l <;> cases lp <;> cases ap <;>
      simp [isEffectiveLoading, mergeDetails]

/-- `getPokemonList` (`pokemon.service.ts`, lines 124-149), modelled from
the point where `Promise.allSettled` has delivered one settled outcome per
reference of the fetched page, in the page's order (`allSettled` preserves
input order and never short-circuits). Produces the adapted entities of
the fulfilled outcomes, in order, and the logger calls issued. -/
def getPokemonList (detailResults : List (Except Unit Pokemon)) :
    List Pokemon × List LogEvent :=
  let successfulPokemons := detailResults.filterMap fun r =>
    match r with
    | Except.ok p => some p
    | Except.error _ => none
  let failedCount := detailResults.length - successfulPokemons.length
  (successfulPokemons,
    if failedCount > 0 then [LogEvent.warnRecovered failedCount] else [])

/-- The number K of failed detail lookups among the settled outcomes. -/
def failedLookupCount (detailResults : List (Except Unit Pokemon)) : Nat :=
  detailResults.countP fun r =>
    match r with
    | Except.error _ => true
    | Except.ok _ => false

theorem length_fulfilled_add_failed (l : List (Except Unit Pokemon)) :
    (l.filterMap fun r =>
      match r with
      | Except.ok p => some p
      | Except.error _ => none).length + failedLookupCount l = l.length := by
  induction l with
  | nil => rfl
  | cons r rest ih =>
      cases r <;> simp [failedLookupCount, List.countP_cons] at ih ⊢ <;> omega

/-- Claim C4, amended: with N settled outcomes of which K failed, the page
resolves with exactly the N−K fulfilled entities (an entity appears iff its
lookup fulfilled), and a warning carrying K is logged exactly when K > 0 —
a fully successful page (K = 0) logs nothing. -/
theorem getPokemonList_partial_failure (detailResults : List (Except Unit Pokemon)) :
    (getPokemonList detailResults).1.length
      = detailResults.length - failedLookupCount detailResults ∧
    (∀ p, p ∈ (getPokemonList detailResults).1 ↔ Except.ok p ∈ detailResults) ∧
    (0 < failedLookupCount detailResults →
      (getPokemonList detailResults).2
        = [LogEvent.warnRecovered (failedLookupCount detailResults)]) ∧
    (failedLookupCount detailResults = 0 → (getPokemonList detailResults).2 = []) := by
  have hlen := length_fulfilled_add_failed detailResults
  refine ⟨by simp [getPokemonList]; omega, ?_, ?_, ?_⟩
  · intro p
    simp only [getPokemonList, List.mem_filterMap]
    constructor
    · rintro ⟨a, ha, hfa⟩
      cases a with
      | ok q =>
          simp at hfa
          exact hfa ▸ ha
      | error e => simp at hfa
    · intro hp
      exact ⟨Except.ok p, hp, rfl⟩
  · intro hK
    have hfc : detailResults.length -
        (detailResults.filterMap fun r =>
          match r with
          | Except.ok p => some p
          | Except.error _ => none).length = failedLookupCount detailResults := by
      omega
    simp [getPokemonList, hfc]
    omega
  · intro hK
    have hfc : detailResults.length -
        (detailResults.filterMap fun r =>
          match r with
          | Except.ok p => some p
          | Except.error _ => none).length = 0 := by
      omega
    simp [getPokemonList, hfc]

/-- A concrete adapted entity used in closed statements. -/
def bulbasaurPokemon : Pokemon :=
  { id := 1, name := ("bulbasaur").toList,
    imageUrl := ("https://img.example/bulbasaur.png").toList,
    types := [("grass").toList, ("poison").toList],
    height := 7, weight := 69,
    stats := { hp := 45, attack := 49, defense := 49, specialAttack := 65,
               specialDefense := 65, speed := 45 } }

/-- Witness for the amended C4: one fulfilled and one failed lookup yield a
single entity and a warning carrying the count 1. -/
theorem getPokemonList_partial_failure_witness :
    (getPokemonList [Except.ok bulbasaurPokemon, Except.error ()]).1.length = 1 ∧
    (getPokemonList [Except.ok bulbasaurPokemon, Except.error ()]).2
      = [LogEvent.warnRecovered 1] := by
  have h := getPokemonList_partial_failure [Except.ok bulbasaurPokemon, Except.error ()]
  exact ⟨h.1, h.2.2.1 (by decide)⟩

/-- Claim C4, counterexample to the claim as stated: a page whose every
lookup succeeds (N = 1, K = 0) logs no warning at all, in particular no
warning carrying the count 0. -/
theorem getPokemonList_no_warning_on_full_success :
    (getPokemonList [Except.ok bulbasaurPokemon]).2 = [] ∧
    LogEvent.warnRecovered 0 ∉ (getPokemonList [Except.ok bulbasaurPokemon]).2 := by
  refine ⟨rfl, ?_⟩
  simp [getPokemonList]

/-- A lightweight name-index entry, the `{name, url}` projection returned
by `getAllPokemonNames` and filtered by `usePokemonSearch`. -/
structure NameIndexEntry where
  name : JSString
  url : JSString
deriving DecidableEq

/-- Step 1 of the `usePokemonSearch` query function
(`usePokemonSearch.ts`, lines 65-67): case-insensitive prefix filter of
the session index by the query. -/
def searchFilter (allNames : List NameIndexEntry) (searchQuery : JSString) :
    List NameIndexEntry :=
  allNames.filter fun p => jsStartsWith (jsToLower p.name) (jsToLower searchQuery)

/-- Step 2 of the query function (`usePokemonSearch.ts`, line 71): the
slice `filtered.slice(0, 20 * page)` handed to hydration. -/
def searchItemsToShow (allNames : List NameIndexEntry) (searchQuery : JSString)
    (page : Nat) : List NameIndexEntry :=
  (searchFilter allNames searchQuery).take (20 * page)

theorem jsStartsWith_iff (s q : JSString) :
    jsStartsWith s q = true ↔ ∃ r, s = q ++ r := by
  induction q generalizing s with
  | nil => simp [jsStartsWith]
  | cons d q ih =>
      cases s with
      | nil => simp [jsStartsWith]
      | cons c s =>
          simp only [jsStartsWith, Bool.and_eq_true, decide_eq_true_eq, ih,
            List.cons_append, List.cons.injEq]
          constructor
          · rintro ⟨hcd, r, hr⟩
            exact ⟨r, hcd, hr⟩
          · rintro ⟨r, hcd, hr⟩
            exact ⟨hcd, r, hr⟩

/-- Index fixture from the spec's search example. -/
def pikachuEntry : NameIndexEntry :=
  { name := ("pikachu").toList, url := ("https://pokeapi.co/api/v2/pokemon/25/").toList }

/-- Index fixture from the spec's search example. -/
def pidgeyEntry : NameIndexEntry :=
  { name := ("pidgey").toList, url := ("https://pokeapi.co/api/v2/pokemon/16/").toList }

/-- Index fixture from the spec's search example. -/
def bulbasaurEntry : NameIndexEntry :=
  { name := ("bulbasaur").toList, url := ("https://pokeapi.co/api/v2/pokemon/1/").toList }

/-- Claim C6: for a query of length at least 2 (the search threshold), the
filter keeps exactly the entries whose lowercased name has the lowercased
query as a prefix, in the index's own order (the result is a sublist of
the index); hydration receives exactly the first `20 * page` filtered
entries (a prefix of the filtered list); and the query "pi" over the
index [pikachu, pidgey, bulbasaur] yields [pikachu, pidgey]. -/
theorem searchFilter_spec (allNames : List NameIndexEntry)
    (searchQuery : JSString) (page : Nat) (hq : 2 ≤ searchQuery.length) :
    (∀ p, p ∈ searchFilter allNames searchQuery ↔
      p ∈ allNames ∧ ∃ r, jsToLower p.name = jsToLower searchQuery ++ r) ∧
    (searchFilter allNames searchQuery).Sublist allNames ∧
    searchItemsToShow allNames searchQuery page
      = (searchFilter allNames searchQuery).take (20 * page) ∧
    (searchItemsToShow allNames searchQuery page).IsPrefix
      (searchFilter allNames searchQuery) ∧
    searchFilter [pikachuEntry, pidgeyEntry, bulbasaurEntry] (("pi").toList)
      = [pikachuEntry, pidgeyEntry] := by
  refine ⟨?_, List.filter_sublist _, rfl, List.take_prefix _ _, by decide⟩
  intro p
  simp [searchFilter, List.mem_filter, jsStartsWith_iff]

/-- Witness for C6 at the spec's concrete search example. -/
theorem searchFilter_spec_witness :
    searchFilter [pikachuEntry, pidgeyEntry, bulbasaurEntry] (("pi").toList)
      = [pikachuEntry, pidgeyEntry] :=
  (searchFilter_spec [pikachuEntry, pidgeyEntry, bulbasaurEntry]
    (("pi").toList) 1 (by decide)).2.2.2.2

/-- Claim C8 evaluation: a decode failure (`FileReader` firing `onerror`)
makes `convertImageUrlToBase64` reject without logging, instead of
returning the original remote URI; a fetch failure does degrade to the
original URI as documented. -/
theorem convertImageUrlToBase64_decode_failure_rejects :
    (convertImageUrlToBase64 (("https://img.example/pikachu.png").toList)
        EmbedOutcome.readerFail).1 = Except.error () ∧
    (convertImageUrlToBase64 (("https://img.example/pikachu.png").toList)
        EmbedOutcome.readerFail).2 = [] ∧
    (convertImageUrlToBase64 (("https://img.example/pikachu.png").toList)
        EmbedOutcome.fetchFail).1
      = Except.ok (("https://img.example/pikachu.png").toList) :=
  ⟨rfl, rfl, rfl⟩

/-- One entry of the raw payload's `stats` array
(`pokemon.service.ts`, interface `PokeAPIResponse`): `base_stat` plus the
nested `stat.name`. -/
structure ApiStat where
  base_stat : Nat
  stat_name : JSString
deriving DecidableEq

/-- One entry of the raw payload's `types` array: the nested `type.name`. -/
structure ApiTypeSlot where
  type_name : JSString
deriving DecidableEq

/-- The nested `sprites.other['official-artwork']` object. -/
structure ApiArtwork where
  front_default : JSString
deriving DecidableEq

/-- The `sprites.other` object; the TS key `'official-artwork'` is spelled
`officialArtwork` here, and its optionality models the second `?.` of the
adapter's image access. -/
structure ApiSpritesOther where
  officialArtwork : Option ApiArtwork
deriving DecidableEq

/-- The raw payload's `sprites` object. -/
structure ApiSprites where
  front_default : JSString
  other : Option ApiSpritesOther
deriving DecidableEq

/-- The raw catalog payload `PokeAPIResponse` (`pokemon.service.ts`). -/
structure PokeAPIResponse where
  id : Nat
  name : JSString
  height : Nat
  weight : Nat
  sprites : ApiSprites
  types : List ApiTypeSlot
  stats : List ApiStat
deriving DecidableEq

/-- JS `x || y` for an optionally-absent string `x`: `undefined` and the
empty string are falsy and fall through to `y`. -/
def jsOrString (primary : Option JSString) (fallback : JSString) : JSString :=
  match primary with
  | none => fallback
  | some s => if s = [] then fallback else s

/-- The adapter's per-stat access
`data.stats.find((s) => s.stat.name === n)?.base_stat || 0`
(`pokemon.service.ts`, lines 85-90). `v || 0` agrees with `v` on every
natural number (`0 || 0` is `0`), so the found entry's `base_stat` is
returned as is, and a missing entry yields 0. -/
def statOf (stats : List ApiStat) (n : JSString) : Nat :=
  match stats.find? (fun s => decide (s.stat_name = n)) with
  | some e => e.base_stat
  | none => 0

/-- `adaptPokemon` (`pokemon.service.ts`, lines 74-93). -/
def adaptPokemon (data : PokeAPIResponse) : Pokemon :=
  { id := data.id
    name := data.name
    imageUrl := jsOrString
      ((data.sprites.other.bind ApiSpritesOther.officialArtwork).map
        ApiArtwork.front_default)
      data.sprites.front_default
    types := data.types.map ApiTypeSlot.type_name
    height := data.height
    weight := data.weight
    stats :=
      { hp := statOf data.stats (("hp").toList)
        attack := statOf data.stats (("attack").toList)
        defense := statOf data.stats (("defense").toList)
        specialAttack := statOf data.stats (("special-attack").toList)
        specialDefense := statOf data.stats (("special-defense").toList)
        speed := statOf data.stats (("speed").toList) } }

/-- Modelled from the claim's wording, for comparison with `statOf`: the
`base_stat` of the first entry carrying the requested stat name, and 0
when no entry carries it. -/
def specStat : List ApiStat → JSString → Nat
  | [], _ => 0
  | e :: rest, n => if e.stat_name = n then e.base_stat else specStat rest n

theorem statOf_eq_specStat (stats : List ApiStat) (n : JSString) :
    statOf stats n = specStat stats n := by
  induction stats with
  | nil => rfl
  | cons e rest ih =>
      by_cases h : e.stat_name = n
      · simp [statOf, specStat, List.find?, h]
      · have hd : decide (e.stat_name = n) = false := decide_eq_false h
        simp only [statOf, specStat, List.find?, hd, if_neg h] at ih ⊢
        exact ih

theorem specStat_eq_zero_of_absent (stats : List ApiStat) (n : JSString)
    (h : ∀ e ∈ stats, e.stat_name ≠ n) : specStat stats n = 0 := by
  induction stats with
  | nil => rfl
  | cons e rest ih =>
      have he := h e (List.mem_cons_self e rest)
      simp only [specStat, he, if_false]
      exact ih fun e2 h2 => h e2 (List.mem_cons_of_mem e h2)

theorem specStat_eq_first_match (pre rest : List ApiStat) (e : ApiStat)
    (n : JSString) (he : e.stat_name = n) (hpre : ∀ e2 ∈ pre, e2.stat_name ≠ n) :
    specStat (pre ++ e :: rest) n = e.base_stat := by
  induction pre with
  | nil => simp [specStat, he]
  | cons f fs ih =>
      have hf := hpre f (List.mem_cons_self f fs)
      simp only [List.cons_append, specStat, hf, if_false]
      exact ih fun e2 h2 => hpre e2 (List.mem_cons_of_mem f h2)

/-- Claim C10: every stat field of the adapted entity is the `base_stat`
of the first payload entry carrying that stat's name, and 0 when no entry
carries it — the adapter is total, so a missing stat never errors or
leaves the field absent. -/
theorem adaptPokemon_stats_lookup (data : PokeAPIResponse) :
    ((adaptPokemon data).stats =
      { hp := specStat data.stats (("hp").toList)
        attack := specStat data.stats (("attack").toList)
        defense := specStat data.stats (("defense").toList)
        specialAttack := specStat data.stats (("special-attack").toList)
        specialDefense := specStat data.stats (("special-defense").toList)
        speed := specStat data.stats (("speed").toList) }) ∧
    (∀ n, (∀ e ∈ data.stats, e.stat_name ≠ n) → specStat data.stats n = 0) ∧
    (∀ n pre rest e, data.stats = pre ++ e :: rest → e.stat_name = n →
      (∀ e2 ∈ pre, e2.stat_name ≠ n) → specStat data.stats n = e.base_stat) := by
  refine ⟨?_, fun n h => specStat_eq_zero_of_absent data.stats n h, ?_⟩
  · simp [adaptPokemon, statOf_eq_specStat]
  · intro n pre rest e hsplit he hpre
    rw [hsplit]
    exact specStat_eq_first_match pre rest e n he hpre

/-- A raw payload carrying only hp and attack stats. -/
def samplePayload : PokeAPIResponse :=
  { id := 1, name := ("bulbasaur").toList, height := 7, weight := 69,
    sprites := { front_default := ("https://img.example/1.png").toList,
                 other := none },
    types := [{ type_name := ("grass").toList }],
    stats := [{ base_stat := 45, stat_name := ("hp").toList },
              { base_stat := 49, stat_name := ("attack").toList }] }

/-- Witness for C10: on a payload with an hp entry and no speed entry, the
adapted hp is the entry's `base_stat` and the adapted speed is 0. -/
theorem adaptPokemon_stats_lookup_witness :
    (adaptPokemon samplePayload).stats.hp = 45 ∧
    (adaptPokemon samplePayload).stats.speed = 0 := by
  have h := adaptPokemon_stats_lookup samplePayload
  constructor
  · have h1 : specStat samplePayload.stats (("hp").toList) = 45 :=
      h.2.2 (("hp").toList) [] [{ base_stat := 49, stat_name := ("attack").toList }]
        { base_stat := 45, stat_name := ("hp").toList } rfl rfl (by simp)
    rw [h.1]
    exact h1
  · have h0 : specStat samplePayload.stats (("speed").toList) = 0 :=
      h.2.1 (("speed").toList) (by decide)
    rw [h.1]
    exact h0
